import Mathlib

/-!
Verification of the DQ check engine in src/spark_dq_framework.py.

The file is a shallow embedding of the class SparkDQTesting.  Cell values of
the tabular dataset are modelled by Value (SQL NULL, numbers as rationals,
strings).  The free-form dictionary payloads the checks build are modelled by
the JSON-like type J.  Machinery of the external query engine (Spark) is
modelled by a record QueryEnv of fallible query primitives returning Except
String results; the six check methods are translated statement by statement
against that record, and a pure instantiation pureEnv evaluates the
primitives on a concrete in-memory DataFrame.
-/

set_option maxHeartbeats 1000000
set_option linter.unusedVariables false

/-- A cell value of the tabular dataset: SQL NULL, a numeric value (modelled
as a rational) or a string. -/
inductive Value : Type where
  | null : Value
  | num (q : ℚ) : Value
  | str (s : String) : Value
deriving DecidableEq, Repr

/-- The JSON-like payload type used for the details field of a check result,
mirroring the Python dictionaries (ordered key-value lists), lists, strings,
numbers, booleans and None. -/
inductive J : Type where
  | s (v : String) : J
  | n (v : Nat) : J
  | b (v : Bool) : J
  | null : J
  | arr (xs : List J) : J
  | obj (fields : List (String × J)) : J
deriving Repr

/-- Digit-string to number; none when a non-digit occurs.  An empty list of
characters yields some 0 and is rejected by the caller where needed. -/
def digitsToNat (cs : List Char) : Option Nat :=
  cs.foldl
    (fun acc c => acc.bind (fun n => if c.isDigit then some (n * 10 + (c.toNat - 48)) else none))
    (some 0)

/-- Whitespace stripped from both ends of a character list (the implicit
strip of the Python float() builtin). -/
def stripWs (cs : List Char) : List Char :=
  ((cs.dropWhile Char.isWhitespace).reverse.dropWhile Char.isWhitespace).reverse

/-- Models the external Python builtin float() applied to a string, given as
its character list: optional surrounding whitespace, optional sign, decimal
digits with at most one decimal point, at least one digit overall.  (Exotic
accepted forms of the builtin such as exponents, inf and nan are not
modelled; they do not occur in the datasets considered here.) -/
def pyFloatChars (cs : List Char) : Option ℚ :=
  let t := stripWs cs
  let signed : ℚ × List Char :=
    match t with
    | '-' :: r => (-1, r)
    | '+' :: r => (1, r)
    | r => (1, r)
  let body := signed.2
  let ip := body.takeWhile (fun c => !(c == '.'))
  match body.dropWhile (fun c => !(c == '.')) with
  | [] =>
    if ip.isEmpty then none
    else (digitsToNat ip).map (fun n => signed.1 * (n : ℚ))
  | _ :: fp =>
    if fp.any (fun c => c == '.') then none
    else if ip.isEmpty && fp.isEmpty then none
    else
      match digitsToNat ip, digitsToNat fp with
      | some a, some f => some (signed.1 * ((a : ℚ) + (f : ℚ) / ((10 : ℚ) ^ fp.length)))
      | _, _ => none

/-- float() on a string. -/
def pyFloatString (s : String) : Option ℚ := pyFloatChars s.data

/-- Models the Python builtin float() applied to a dataset cell value: None
raises TypeError (no result), numbers convert, strings parse when numeric.
Also serves as the numeric cast the engine applies for averaging. -/
def pyFloatValue : Value → Option ℚ
  | .null => none
  | .num q => some q
  | .str s => pyFloatString s

/-- True when float() succeeds on the value (the numeric-column test of
values_range, line 217 of the source). -/
def canFloat (v : Value) : Bool := (pyFloatValue v).isSome

/-- Rendering of a rational for str(); integral rationals render as the
integer, others keep the fraction form.  Approximates the decimal rendering
of Python floats; no claim depends on the exact digits. -/
def strOfQ (q : ℚ) : String :=
  if q.den = 1 then toString q.num else toString q.num ++ "/" ++ toString q.den

/-- Models the Python builtin str() on a dataset cell value. -/
def strOfValue : Value → String
  | .null => "None"
  | .num q => strOfQ q
  | .str s => s

/-- Models the Python builtin int() on a rational: truncation toward zero. -/
def pyInt (q : ℚ) : Int :=
  if q < 0 then -(Int.fdiv (-q).num (((-q).den : ℤ))) else Int.fdiv q.num ((q.den : ℤ))

/-- Lexicographic comparison of character lists through the character
codes. -/
def charListLe : List Char → List Char → Bool
  | [], _ => true
  | _ :: _, [] => false
  | a :: as, b :: bs =>
    if a.toNat < b.toNat then true
    else if b.toNat < a.toNat then false
    else charListLe as bs

/-- String comparison used by the engine for ordering and max/min over
string columns. -/
def strLe (a b : String) : Bool := charListLe a.data b.data

/-- Boolean total order on cell values used for ordering and max/min: NULL
first, then numbers, then strings (within one column only one shape occurs,
so the cross-shape cases are arbitrary but fixed). -/
def vle : Value → Value → Bool
  | .null, _ => true
  | .num _, .null => false
  | .num a, .num b => decide (a ≤ b)
  | .num _, .str _ => true
  | .str _, .null => false
  | .str _, .num _ => false
  | .str a, .str b => strLe a b

/-- A row of the dataset: ordered association of column name to value. -/
abbrev Row := List (String × Value)

/-- The loaded dataset: schema columns plus rows.  Models the DataFrame the
class caches at load time. -/
structure DataFrame : Type where
  cols : List String
  rows : List Row
deriving Repr

/-- Reading one column of one row.  The pure dataset model assumes the
referenced column is present in the row (a missing column is an engine-level
failure, modelled by the Except layer of QueryEnv, not here). -/
def getCol (r : Row) (c : String) : Value := ((r.lookup c).getD Value.null)

/-- All values of one column, in row order. -/
def colValues (df : DataFrame) (c : String) : List Value := df.rows.map (fun r => getCol r c)

/-- The tuple of key-column values of a row (the groupBy key of
find_duplicates, source line 130). -/
def keyTuple (cols : List String) (r : Row) : List Value := cols.map (getCol r)

/-- groupBy(key).count().where(count > 1).count() of the source, lines
130-134: the number of distinct key tuples occurring in more than one row. -/
def dupGroupCountPure (df : DataFrame) (cols : List String) : Nat :=
  let ts := df.rows.map (keyTuple cols)
  (ts.dedup.filter (fun t => decide (1 < ts.count t))).length

/-- where(col(c).isNull()).count() of the source, line 151. -/
def nullCountPure (df : DataFrame) (c : String) : Nat :=
  ((colValues df c).filter (fun v => v == Value.null)).length

/-- groupBy(c).count() of the source: the distinct values of the column,
each with its number of rows. -/
def groupPairs (df : DataFrame) (c : String) : List (Value × Nat) :=
  (colValues df c).dedup.map (fun v => (v, (colValues df c).count v))

/-- The non-null values of a list (Spark max/min/avg ignore NULL). -/
def nonNullValues (l : List Value) : List Value :=
  l.filter (fun v => !(v == Value.null))

/-- F.max over a column: greatest non-null value, NULL when none. -/
def vmaxPure (l : List Value) : Value :=
  match nonNullValues l with
  | [] => .null
  | x :: xs => xs.foldl (fun a v => if vle a v then v else a) x

/-- F.min over a column: least non-null value, NULL when none. -/
def vminPure (l : List Value) : Value :=
  match nonNullValues l with
  | [] => .null
  | x :: xs => xs.foldl (fun a v => if vle v a then v else a) x

/-- F.avg over a column: mean of the values the engine can cast to a number,
NULL when there are none. -/
def vavgPure (l : List Value) : Value :=
  let nums := l.filterMap pyFloatValue
  if nums.isEmpty then .null else .num (nums.sum / (nums.length : ℚ))

/-- Descending insertion by the first component (the group value). -/
def insertByDesc (p : Value × Nat) : List (Value × Nat) → List (Value × Nat)
  | [] => [p]
  | q :: qs => if vle q.1 p.1 then p :: q :: qs else q :: insertByDesc p qs

/-- orderBy(col.desc()) over the group-count pairs, source line 310. -/
def sortByDesc (l : List (Value × Nat)) : List (Value × Nat) :=
  l.foldr insertByDesc []

example : canFloat (.str "12.5") = true := by decide
example : canFloat (.str "abc") = false := by decide
example : canFloat (.str "-3") = true := by decide
example : canFloat (.str " 42 ") = true := by decide
example : canFloat .null = false := by decide
example : pyInt (11 / 2) = 5 := by norm_num [pyInt]; decide
example :
    sortByDesc [(.num 1, 2), (.num 3, 1), (.num 2, 5)]
      = [(.num 3, 1), (.num 2, 5), (.num 1, 2)] := by decide

/-- Update of a Python dictionary modelled as an ordered key-value list: an
existing key keeps its position and gets the new value, a fresh key is
appended. -/
def pyDictInsert {α : Type} (d : List (String × α)) (k : String) (v : α) : List (String × α) :=
  match d with
  | [] => [(k, v)]
  | (k0, v0) :: rest => if k0 = k then (k, v) :: rest else (k0, v0) :: pyDictInsert rest k v

/-- The outcome of the body of a check when no exception escapes: the status
string together with the details payload. -/
abbrev CheckOut := String × J

/-- The query capability of the external engine (the Spark session and the
cached DataFrame) as consumed by the checks.  Every primitive can fail,
modelling an exception raised by the underlying query. -/
structure QueryEnv : Type where
  dupGroupCount : List String → Except String Nat
  nullCount : String → Except String Nat
  rangeStats : String → Except String (Value × Value × Value)
  groupCount : String → Except String (List (Value × Nat))
  orderedGroupCountDesc : String → Except String (List (Value × Nat))
  dfCount : Except String Nat

/-- The state the constructor of SparkDQTesting builds: configuration plus
the cached column list and row count of the loaded table. -/
structure DQState : Type where
  key_columns : List String
  lud_column : Option String
  table_columns : List String
  table_count : Nat

/-- Body of find_duplicates, source lines 129-139. -/
def find_duplicates_body (st : DQState) (env : QueryEnv) : Except String CheckOut := do
  let duplicate_count ← env.dupGroupCount st.key_columns
  pure (if duplicate_count = 0 then "Passed" else "Failed",
    J.obj [("duplicated_rows_count", J.n duplicate_count)])

/-- The dict comprehension of find_nulls, source lines 150-152: one null
count per key column, collected in a dictionary. -/
def nullsLoop (env : QueryEnv) : List String → List (String × Nat) → Except String (List (String × Nat))
  | [], d => .ok d
  | c :: cs, d => do
    let n ← env.nullCount c
    nullsLoop env cs (pyDictInsert d c n)

/-- Body of find_nulls, source lines 149-162. -/
def find_nulls_body (st : DQState) (env : QueryEnv) : Except String CheckOut := do
  let null_details ← nullsLoop env st.key_columns []
  let nulls_sum := (null_details.map Prod.snd).sum
  pure (if nulls_sum = 0 then "Passed" else "Failed",
    J.obj [("total_null_count", J.n nulls_sum),
           ("nulls_by_column", J.obj (null_details.map (fun p => (p.1, J.n p.2))))])

/-- list(set(table_columns) - set(key_columns)) of the source, lines 173 and
206: the distinct table columns that are not key columns.  The Python set
iteration order is arbitrary; the model fixes one order. -/
def nonKeyColumns (st : DQState) : List String :=
  st.table_columns.dedup.filter (fun c => !(st.key_columns.contains c))

/-- The per-column loop of check_completeness, source lines 185-189: null
percentage of the column, rendered truncated, with the failure flag raised
past the 5 percent threshold.  A zero row count reproduces the Python
ZeroDivisionError. -/
def ccLoop (env : QueryEnv) (tc : Nat) :
    List String → List (String × J) → Bool → Except String (List (String × J) × Bool)
  | [], d, failed => .ok (d, failed)
  | c :: cs, d, failed => do
    let n ← env.nullCount c
    if tc = 0 then Except.error "division by zero"
    else
      let p : ℚ := ((n : ℚ) / (tc : ℚ)) * 100
      ccLoop env tc cs (pyDictInsert d c (J.s (toString (pyInt p) ++ "%")))
        (failed || decide (5 < p))

/-- Body of check_completeness, source lines 172-194. -/
def check_completeness_body (st : DQState) (env : QueryEnv) : Except String CheckOut := do
  let non_key_columns := nonKeyColumns st
  if non_key_columns.isEmpty then
    pure ("Skipped", J.s "Every column is a key column")
  else do
    let r ← ccLoop env st.table_count non_key_columns [] false
    pure (if r.2 then "Failed" else "Passed",
      J.obj [("nulls_percentage_by_column", J.obj r.1)])

/-- The per-column loop of values_range, source lines 208-225: the column is
reported only when float() succeeds on its max value, otherwise it is
skipped silently. -/
def vrLoop (env : QueryEnv) :
    List String → List (String × J) → Except String (List (String × J))
  | [], d => .ok d
  | c :: cs, d => do
    let stats ← env.rangeStats c
    if canFloat stats.1 then
      vrLoop env cs (pyDictInsert d c (J.obj
        [("max", J.s (strOfValue stats.1)),
         ("min", J.s (strOfValue stats.2.1)),
         ("avg", J.s (strOfValue stats.2.2))]))
    else vrLoop env cs d

/-- Body of values_range, source lines 203-230. -/
def values_range_body (st : DQState) (env : QueryEnv) : Except String CheckOut := do
  let range_details ← vrLoop env (nonKeyColumns st) []
  pure ("Passed", J.obj [("values_range_details", J.obj range_details)])

/-- F.max over the count column of a group-count result. -/
def listMaxNat : List Nat → Option Nat
  | [] => none
  | x :: xs => some (xs.foldl max x)

/-- F.min over the count column of a group-count result. -/
def listMinNat : List Nat → Option Nat
  | [] => none
  | x :: xs => some (xs.foldl min x)

/-- F.avg over the count column of a group-count result. -/
def avgCounts (counts : List Nat) : Option ℚ :=
  match counts with
  | [] => none
  | _ :: _ => some ((counts.sum : ℚ) / ((counts.length : ℚ)))

/-- str() on a possibly-missing count. -/
def strOfOptNat : Option Nat → String
  | none => "None"
  | some n => toString n

/-- str() on a possibly-missing average. -/
def strOfOptQ : Option ℚ → String
  | none => "None"
  | some q => strOfQ q

/-- The value field of a representative row: the string when a row was
found, Python None otherwise. -/
def jOfOptStr : Option String → J
  | none => J.null
  | some s => J.s s

/-- The per-key-column loop of key_density, source lines 243-267. -/
def kdLoop (env : QueryEnv) :
    List String → List (String × J) → Except String (List (String × J))
  | [], d => .ok d
  | c :: cs, d => do
    let pairs ← env.groupCount c
    let counts := pairs.map Prod.snd
    let maxC := listMaxNat counts
    let minC := listMinNat counts
    let avgC := avgCounts counts
    let maxVal := pairs.find? (fun p => some p.2 == maxC)
    let minVal := pairs.find? (fun p => some p.2 == minC)
    let total ← env.dfCount
    kdLoop env cs (pyDictInsert d c (J.obj
      [("max_count", J.obj [("value", jOfOptStr (maxVal.map (fun p => strOfValue p.1))),
                            ("count", J.s (strOfOptNat maxC))]),
       ("min_count", J.obj [("value", jOfOptStr (minVal.map (fun p => strOfValue p.1))),
                            ("count", J.s (strOfOptNat minC))]),
       ("avg_count", J.s (strOfOptQ avgC)),
       ("distinct_values", J.s (toString pairs.length)),
       ("total_records", J.s (toString total))]))

/-- Body of key_density, source lines 240-272. -/
def key_density_body (st : DQState) (env : QueryEnv) : Except String CheckOut := do
  let kd ← kdLoop env st.key_columns []
  pure ("Passed", J.obj [("key_density_details", J.obj kd)])

/-- Body of lud_density after the configuration gate, source lines 285-337.
A missing average (empty table) reproduces the TypeError of float(None) at
line 306. -/
def lud_density_body (st : DQState) (env : QueryEnv) (lud : String) : Except String CheckOut := do
  let pairs ← env.groupCount lud
  let counts := pairs.map Prod.snd
  let maxC := listMaxNat counts
  let minC := listMinNat counts
  let maxVal := pairs.find? (fun p => some p.2 == maxC)
  let minVal := pairs.find? (fun p => some p.2 == minC)
  match avgCounts counts with
  | none => Except.error "float() argument must be a string or a real number, not NoneType"
  | some avgQ => do
    let base : List (String × J) :=
      [("max_count", J.obj [("value", jOfOptStr (maxVal.map (fun p => strOfValue p.1))),
                            ("count", J.s (strOfOptNat maxC))]),
       ("min_count", J.obj [("value", jOfOptStr (minVal.map (fun p => strOfValue p.1))),
                            ("count", J.s (strOfOptNat minC))]),
       ("avg_count", J.s (strOfQ avgQ)),
       ("distinct_values", J.s (toString pairs.length))]
    let ordered ← env.orderedGroupCountDesc lud
    match ordered with
    | curr :: rest =>
      if 6 ≤ rest.length then
        let last_luds := (rest.take 6).map Prod.snd
        let last_luds_avg : ℚ := ((last_luds.sum : ℚ)) / ((last_luds.length : ℚ))
        let current_count := curr.2
        let ratioAvg : ℚ :=
          if 0 < last_luds_avg then ((current_count : ℚ)) / last_luds_avg else 0
        let below_acceptable := decide (ratioAvg < 2 / 5)
        pure (if below_acceptable then "Failed" else "Passed",
          J.obj (base ++ [("moving_average", J.obj
            [("last_luds_avg", J.s (strOfQ last_luds_avg)),
             ("current_count", J.s (toString current_count)),
             ("ratio_to_average", J.s (strOfQ ratioAvg)),
             ("below_acceptable_average", J.b below_acceptable),
             ("dates_analyzed", J.obj
               [("current_date", J.s (strOfValue curr.1)),
                ("analyzed_dates", J.arr ((rest.take 6).map (fun p => J.s (strOfValue p.1))))])])]))
      else
        pure ("Failed", J.obj (base ++ [("moving_average", J.obj
          [("error", J.s "Insufficient data for moving average calculation")])]))
    | [] =>
      pure ("Failed", J.obj (base ++ [("moving_average", J.obj
        [("error", J.s "Insufficient data for moving average calculation")])]))

/-- The standardized test result record, source lines 119-125; the timestamp
is supplied by the clock of the run. -/
structure TestResult : Type where
  status : String
  timestamp : String
  details : J
deriving Repr

/-- _create_test_result of the source. -/
def create_test_result (status : String) (timestamp : String) (details : J) : TestResult :=
  { status := status, timestamp := timestamp, details := details }

/-- The per-check try/except boundary every check method wraps its body in:
a successful body gives its own status and details, an exception gives
status Error with the message as details. -/
def guardCheck (ts : String) (body : Except String CheckOut) : TestResult :=
  match body with
  | .ok r => create_test_result r.1 ts r.2
  | .error e => create_test_result "Error" ts (J.s e)

/-- The report: testing_results of the source, an insertion-ordered
dictionary from check name to result. -/
abbrev Report := List (String × TestResult)

/-- One check method: run the body behind the try/except boundary and store
the result under the check name. -/
def runCheck (name : String) (ts : String) (body : Except String CheckOut) (res : Report) : Report :=
  pyDictInsert res name (guardCheck ts body)

/-- Truthiness of the configured lud column (the guard at source line 282). -/
def ludConfigured : Option String → Bool
  | none => false
  | some s => !s.isEmpty

/-- The lud_density method, source lines 280-343: early return without any
result when no truthy time column is configured. -/
def lud_density_check (st : DQState) (env : QueryEnv) (ts : String) (res : Report) : Report :=
  match st.lud_column with
  | none => res
  | some lud =>
    if lud.isEmpty then res
    else runCheck "lud_density" ts (lud_density_body st env lud) res

/-- run_all_tests of the source, lines 345-360: the six checks in their
fixed order, starting from the current testing_results dictionary. -/
def run_all_tests (st : DQState) (env : QueryEnv) (clock : Nat → String) (init : Report) : Report :=
  let r0 := runCheck "find_duplicates" (clock 0) (find_duplicates_body st env) init
  let r1 := runCheck "find_nulls" (clock 1) (find_nulls_body st env) r0
  let r2 := runCheck "check_completeness" (clock 2) (check_completeness_body st env) r1
  let r3 := runCheck "values_range" (clock 3) (values_range_body st env) r2
  let r4 := runCheck "key_density" (clock 4) (key_density_body st env) r3
  lud_density_check st env (clock 5) r4

/-- The query primitives evaluated on a concrete in-memory DataFrame: the
pure instantiation of the engine, on which no query fails. -/
def pureEnv (df : DataFrame) : QueryEnv where
  dupGroupCount := fun cols => .ok (dupGroupCountPure df cols)
  nullCount := fun c => .ok (nullCountPure df c)
  rangeStats := fun c =>
    .ok (vmaxPure (colValues df c), vminPure (colValues df c), vavgPure (colValues df c))
  groupCount := fun c => .ok (groupPairs df c)
  orderedGroupCountDesc := fun c => .ok (sortByDesc (groupPairs df c))
  dfCount := .ok df.rows.length

/-- The constructor state for a concrete loaded DataFrame. -/
def pureState (df : DataFrame) (keys : List String) (lud : Option String) : DQState :=
  { key_columns := keys, lud_column := lud, table_columns := df.cols,
    table_count := df.rows.length }

/-- A dynamically typed Python value, as far as the constructor argument
validation needs: strings, integers, None and lists. -/
inductive PyObj : Type where
  | pyStr (s : String) : PyObj
  | pyInt (n : Int) : PyObj
  | pyNone : PyObj
  | pyList (xs : List PyObj) : PyObj
deriving Repr

/-- isinstance(x, str). -/
def isPyStr : PyObj → Bool
  | .pyStr _ => true
  | _ => false

/-- isinstance(x, list) together with all elements being strings. -/
def isStrList : PyObj → Bool
  | .pyList xs => xs.all isPyStr
  | _ => false

/-- _validate_inputs of the source, lines 76-81: only type checks are
performed. -/
def validate_inputs (table_schema table_name key_columns : PyObj) : Except String Unit :=
  if !(isPyStr table_schema && isPyStr table_name) then
    .error "table_schema and table_name must be strings"
  else if !(isStrList key_columns) then
    .error "key_columns must be a list of strings"
  else .ok ()

/-- The value side of a partition filter entry: a single value or a list of
values. -/
inductive PartVal : Type where
  | single (v : String) : PartVal
  | listVals (vs : List String) : PartVal
deriving DecidableEq, Repr

/-- _build_query of the source, lines 87-99.  The partition dictionary is an
insertion-ordered key-value list; next(iter(...)) reads its first entry. -/
def build_query (table_schema table_name : String) (part : List (String × PartVal)) : String :=
  let query := "SELECT * FROM " ++ table_schema ++ "." ++ table_name
  match part with
  | [] => query
  | (key, value) :: _ =>
    match value with
    | .listVals vs => query ++ " WHERE " ++ key ++ " in (" ++ String.intercalate "," vs ++ ")"
    | .single v => query ++ " WHERE " ++ key ++ " in (" ++ v ++ ")"

/-- The string behind a PyObj known to be a string. -/
def asString : PyObj → String
  | .pyStr s => s
  | _ => ""

/-- The string list behind a PyObj known to be a list of strings. -/
def asStringList : PyObj → List String
  | .pyList xs => xs.map asString
  | _ => []

/-- The constructor of SparkDQTesting, lines 52-70 together with
_load_table_data, lines 101-113.  The response of the engine to the load
query is the parameter sparkSql; load failures and the zero-row check are
wrapped into the RuntimeError message of line 113. -/
def dqInit (table_schema table_name key_columns : PyObj) (lud_column : Option String)
    (part : List (String × PartVal)) (sparkSql : String → Except String DataFrame) :
    Except String DQState := do
  match validate_inputs table_schema table_name key_columns with
  | .error e => .error e
  | .ok _ =>
    match sparkSql (build_query (asString table_schema) (asString table_name) part) with
    | .error e => .error ("Failed to query table: " ++ e)
    | .ok df =>
      if df.rows.length = 0 then .error "Failed to query table: Table contains no data"
      else .ok { key_columns := asStringList key_columns, lud_column := lud_column,
                 table_columns := df.cols, table_count := df.rows.length }

/-- C10: when the partition filter dictionary passed at construction has
more than one entry, the load query built by _build_query is the one built
from the first entry alone: every other entry is silently ignored. -/
theorem build_query_uses_first_partition_entry_only :
    ∀ (table_schema table_name : String) (e : String × PartVal)
      (rest : List (String × PartVal)),
      build_query table_schema table_name (e :: rest)
        = build_query table_schema table_name [e] := by
  intro s n e rest
  rfl

/-- C2: for every configuration the report of run_all_tests holds exactly
one entry for each of the five unconditional checks, in execution order, and
a lud_density entry exactly when a truthy time column is configured. -/
theorem run_all_tests_report_keys :
    ∀ (st : DQState) (env : QueryEnv) (clock : Nat → String),
      (run_all_tests st env clock []).map Prod.fst
        = ["find_duplicates", "find_nulls", "check_completeness", "values_range",
           "key_density"]
          ++ (if ludConfigured st.lud_column then ["lud_density"] else []) := by
  intro st env clock
  rcases st with ⟨keys, lud, cols, cnt⟩
  cases lud with
  | none => rfl
  | some s =>
    cases hse : s.isEmpty with
    | true =>
      simp only [run_all_tests, lud_density_check, ludConfigured, hse]
      rfl
    | false =>
      simp only [run_all_tests, lud_density_check, ludConfigured, hse]
      rfl

/-- C1: in the assembled report each of the six checks contributes exactly
the guarded result of its own body, independently of what the other bodies
do (run_all_tests itself is total, so nothing propagates to its caller);
and the guard converts an exception into a result with status Error whose
details are the message of the exception. -/
theorem checks_isolated_and_errors_reported :
    ∀ (st : DQState) (env : QueryEnv) (clock : Nat → String),
      (run_all_tests st env clock []).lookup "find_duplicates"
          = some (guardCheck (clock 0) (find_duplicates_body st env))
      ∧ (run_all_tests st env clock []).lookup "find_nulls"
          = some (guardCheck (clock 1) (find_nulls_body st env))
      ∧ (run_all_tests st env clock []).lookup "check_completeness"
          = some (guardCheck (clock 2) (check_completeness_body st env))
      ∧ (run_all_tests st env clock []).lookup "values_range"
          = some (guardCheck (clock 3) (values_range_body st env))
      ∧ (run_all_tests st env clock []).lookup "key_density"
          = some (guardCheck (clock 4) (key_density_body st env))
      ∧ (∀ s, st.lud_column = some s → s.isEmpty = false →
          (run_all_tests st env clock []).lookup "lud_density"
            = some (guardCheck (clock 5) (lud_density_body st env s)))
      ∧ (∀ ts e, guardCheck ts (Except.error e) = create_test_result "Error" ts (J.s e)) := by
  intro st env clock
  rcases st with ⟨keys, lud, cols, cnt⟩
  cases lud with
  | none =>
    refine ⟨rfl, rfl, rfl, rfl, rfl, ?_, fun ts e => rfl⟩
    intro s hs
    exact absurd hs (by simp)
  | some s0 =>
    cases hse : s0.isEmpty with
    | true =>
      refine ⟨?_, ?_, ?_, ?_, ?_, ?_, fun ts e => rfl⟩
      all_goals simp only [run_all_tests, lud_density_check, hse]
      · rfl
      · rfl
      · rfl
      · rfl
      · rfl
      · intro s hs hempty
        cases hs
        rw [hse] at hempty
        cases hempty
    | false =>
      refine ⟨?_, ?_, ?_, ?_, ?_, ?_, fun ts e => rfl⟩
      all_goals simp only [run_all_tests, lud_density_check, hse]
      · rfl
      · rfl
      · rfl
      · rfl
      · rfl
      · intro s hs hempty
        cases hs
        rfl

/-- A guarded check result is its status and details, which depend only on
the body, with the supplied timestamp. -/
theorem guardCheck_shape (b : Except String CheckOut) :
    ∃ s d, ∀ ts, guardCheck ts b = create_test_result s ts d := by
  cases b with
  | ok r => exact ⟨r.1, r.2, fun ts => rfl⟩
  | error e => exact ⟨"Error", J.s e, fun ts => rfl⟩

/-- A report without its timestamps: check name, status and details per
entry. -/
def stripTs (r : Report) : List (String × String × J) :=
  r.map (fun p => (p.1, p.2.status, p.2.details))

/-- C9: running the full check suite twice against the same unchanged
dataset handle produces reports with identical status values and identical
details for every check; only the timestamps may differ. -/
theorem run_all_tests_deterministic_up_to_timestamps :
    ∀ (st : DQState) (env : QueryEnv) (c1 c2 : Nat → String),
      stripTs (run_all_tests st env c2 (run_all_tests st env c1 []))
        = stripTs (run_all_tests st env c1 []) := by
  intro st env c1 c2
  obtain ⟨s1, d1, h1⟩ := guardCheck_shape (find_duplicates_body st env)
  obtain ⟨s2, d2, h2⟩ := guardCheck_shape (find_nulls_body st env)
  obtain ⟨s3, d3, h3⟩ := guardCheck_shape (check_completeness_body st env)
  obtain ⟨s4, d4, h4⟩ := guardCheck_shape (values_range_body st env)
  obtain ⟨s5, d5, h5⟩ := guardCheck_shape (key_density_body st env)
  rcases st with ⟨keys, lud, cols, cnt⟩
  cases lud with
  | none =>
    simp only [run_all_tests, lud_density_check, runCheck, h1, h2, h3, h4, h5]
    rfl
  | some s0 =>
    obtain ⟨s6, d6, h6⟩ := guardCheck_shape (lud_density_body ⟨keys, some s0, cols, cnt⟩ env s0)
    cases hse : s0.isEmpty with
    | true =>
      simp only [run_all_tests, lud_density_check, runCheck, hse, h1, h2, h3, h4, h5]
      rfl
    | false =>
      simp only [run_all_tests, lud_density_check, runCheck, hse, h1, h2, h3, h4, h5, h6]
      rfl

/-- A one-column one-row dataset used as a concrete loaded table. -/
def df1 : DataFrame := { cols := ["a"], rows := [[("a", Value.num 1)]] }

/-- C4 counterexample: constructing the checker with an empty key-column
list succeeds, and so does constructing it with a key column that is not
among the columns of the loaded dataset; neither condition aborts the
run, contradicting the claim that they are raised before any check runs. -/
theorem dqInit_accepts_empty_and_foreign_keys :
    dqInit (.pyStr "s") (.pyStr "t") (.pyList []) none [] (fun _ => .ok df1)
        = Except.ok { key_columns := [], lud_column := none,
                      table_columns := ["a"], table_count := 1 }
      ∧ dqInit (.pyStr "s") (.pyStr "t") (.pyList [.pyStr "zz"]) none []
          (fun _ => .ok df1)
        = Except.ok { key_columns := ["zz"], lud_column := none,
                      table_columns := ["a"], table_count := 1 } :=
  ⟨rfl, rfl⟩

/-- C4 (amended): construction aborts, with the load failures wrapped,
exactly when the configuration types are invalid, the load query fails, or
the loaded dataset has zero rows; the key-column list being empty or not a
subset of the dataset columns is not checked at construction. -/
theorem dqInit_fatal_conditions :
    ∀ (ts tn kc : PyObj) (lud : Option String) (part : List (String × PartVal))
      (sparkSql : String → Except String DataFrame),
      ((∃ st, dqInit ts tn kc lud part sparkSql = .ok st)
        ↔ (validate_inputs ts tn kc = .ok ()
            ∧ ∃ df, sparkSql (build_query (asString ts) (asString tn) part) = .ok df
                ∧ df.rows.length ≠ 0))
      ∧ (∀ e, validate_inputs ts tn kc = .ok ()
          → sparkSql (build_query (asString ts) (asString tn) part) = .error e
          → dqInit ts tn kc lud part sparkSql
              = .error ("Failed to query table: " ++ e))
      ∧ (∀ df, validate_inputs ts tn kc = .ok ()
          → sparkSql (build_query (asString ts) (asString tn) part) = .ok df
          → df.rows.length = 0
          → dqInit ts tn kc lud part sparkSql
              = .error "Failed to query table: Table contains no data") := by
  intro ts tn kc lud part sq
  cases hv : validate_inputs ts tn kc with
  | error e0 =>
    refine ⟨⟨fun h => ?_, fun h => ?_⟩, fun e h1 h2 => ?_, fun df h1 h2 h3 => ?_⟩
    · obtain ⟨st, hst⟩ := h
      simp only [dqInit, hv] at hst
      cases hst
    · cases h.1
    · cases h1
    · cases h1
  | ok u =>
    cases u
    cases hq : sq (build_query (asString ts) (asString tn) part) with
    | error e1 =>
      refine ⟨⟨fun h => ?_, fun h => ?_⟩, fun e h1 h2 => ?_, fun df h1 h2 h3 => ?_⟩
      · obtain ⟨st, hst⟩ := h
        simp only [dqInit, hv, hq] at hst
        cases hst
      · obtain ⟨df, hdf, hne⟩ := h.2
        cases hdf
      · cases h2
        simp only [dqInit, hv, hq]
      · cases h2
    | ok df0 =>
      by_cases hr : df0.rows.length = 0
      · refine ⟨⟨fun h => ?_, fun h => ?_⟩, fun e h1 h2 => ?_, fun df h1 h2 h3 => ?_⟩
        · obtain ⟨st, hst⟩ := h
          simp only [dqInit, hv, hq, if_pos hr] at hst
          cases hst
        · obtain ⟨df, hdf, hne⟩ := h.2
          cases hdf
          exact absurd hr hne
        · cases h2
        · simp only [dqInit, hv, hq, if_pos hr]
      · refine ⟨⟨fun h => ?_, fun h => ?_⟩, fun e h1 h2 => ?_, fun df h1 h2 h3 => ?_⟩
        · exact ⟨rfl, df0, rfl, hr⟩
        · exact ⟨{ key_columns := asStringList kc, lud_column := lud,
                   table_columns := df0.cols, table_count := df0.rows.length },
                 by simp only [dqInit, hv, hq, if_neg hr]⟩
        · cases h2
        · cases h2
          exact absurd h3 hr

/-- An engine on which every query raises. -/
def failEnv : QueryEnv where
  dupGroupCount := fun _ => .error "boom"
  nullCount := fun _ => .error "boom"
  rangeStats := fun _ => .error "boom"
  groupCount := fun _ => .error "boom"
  orderedGroupCountDesc := fun _ => .error "boom"
  dfCount := .error "boom"

/-- A constructed state with one key column and a configured time column. -/
def stFail : DQState :=
  { key_columns := ["k"], lud_column := some "d", table_columns := ["k", "d"],
    table_count := 1 }

/-- Witness for C1: on an engine whose queries raise, the lud_density entry
of the report is present with status Error and the message as details. -/
theorem checks_isolated_and_errors_reported_witness :
    (run_all_tests stFail failEnv (fun _ => "t") []).lookup "lud_density"
      = some (create_test_result "Error" "t" (J.s "boom")) := by
  have h := checks_isolated_and_errors_reported stFail failEnv (fun _ => "t")
  have h6 := h.2.2.2.2.2.1 "d" rfl rfl
  exact h6.trans (by rfl)

/-- Witness for C4 (amended): a failing load query aborts construction with
the wrapped error. -/
theorem dqInit_fatal_conditions_witness :
    dqInit (.pyStr "s") (.pyStr "t") (.pyList [.pyStr "a"]) none []
        (fun _ => .error "connection lost")
      = .error "Failed to query table: connection lost" := by
  have h := dqInit_fatal_conditions (.pyStr "s") (.pyStr "t") (.pyList [.pyStr "a"]) none []
    (fun _ => .error "connection lost")
  exact (h.2.1 "connection lost" rfl rfl).trans (by rfl)

/-- Bind on a successful Except value. -/
theorem except_bind_ok {α β : Type} (x : α) (f : α → Except String β) :
    (Except.ok x >>= f) = f x := rfl

/-- Bind on a failed Except value. -/
theorem except_bind_error {α β : Type} (e : String) (f : α → Except String β) :
    ((Except.error e : Except String α) >>= f) = .error e := rfl

/-- A key that is absent from the key list of a dictionary looks up to
none. -/
theorem lookup_none_of_not_mem_keys {α : Type} :
    ∀ (d : List (String × α)) (k : String), k ∉ d.map Prod.fst → d.lookup k = none := by
  intro d
  induction d with
  | nil => intro k _; rfl
  | cons p rest ih =>
    obtain ⟨k0, v0⟩ := p
    intro k hk
    have h1 : ¬(k = k0) := fun h => hk (by simp [h])
    have h2 : k ∉ rest.map Prod.fst := fun h => hk (by simp [h])
    simp only [List.lookup, beq_eq_false_iff_ne.mpr h1]
    exact ih k h2

/-- Dictionary update: the updated key reads the new value, every other key
is unchanged. -/
theorem pyDictInsert_lookup {α : Type} :
    ∀ (d : List (String × α)) (k c : String) (v : α),
      (pyDictInsert d k v).lookup c = if c = k then some v else d.lookup c := by
  intro d
  induction d with
  | nil =>
    intro k c v
    by_cases hc : c = k
    · simp [pyDictInsert, List.lookup, hc]
    · simp [pyDictInsert, List.lookup, beq_eq_false_iff_ne.mpr hc, hc]
  | cons p rest ih =>
    obtain ⟨k0, v0⟩ := p
    intro k c v
    by_cases hp : k0 = k
    · subst hp
      simp only [pyDictInsert, if_pos rfl]
      by_cases hc : c = k0
      · simp [List.lookup, hc]
      · simp [List.lookup, beq_eq_false_iff_ne.mpr hc, hc]
    · simp only [pyDictInsert, if_neg hp]
      by_cases hc : c = k0
      · subst hc
        have hck : ¬(c = k) := fun h => hp (h ▸ rfl)
        simp [List.lookup, if_neg hck]
      · simp only [List.lookup, beq_eq_false_iff_ne.mpr hc]
        exact ih k c v

/-- Inserting a fresh key appends the pair at the end of the dictionary. -/
theorem pyDictInsert_append {α : Type} :
    ∀ (d : List (String × α)) (k : String) (v : α),
      k ∉ d.map Prod.fst → pyDictInsert d k v = d ++ [(k, v)] := by
  intro d
  induction d with
  | nil => intro k v _; rfl
  | cons p rest ih =>
    obtain ⟨k0, v0⟩ := p
    intro k v hk
    have h1 : ¬(k0 = k) := fun h => hk (by simp [h])
    have h2 : k ∉ rest.map Prod.fst := fun h => hk (by simp [h])
    simp only [pyDictInsert, if_neg h1, List.cons_append, List.cons.injEq, true_and]
    exact ih k v h2

/-- On the pure engine the null-count dictionary of find_nulls is the key
columns paired with their null counts, in order. -/
theorem nullsLoop_pure (df : DataFrame) :
    ∀ (cs : List String) (d : List (String × Nat)),
      cs.Nodup → (∀ c ∈ cs, c ∉ d.map Prod.fst) →
      nullsLoop (pureEnv df) cs d
        = .ok (d ++ cs.map (fun c => (c, nullCountPure df c))) := by
  intro cs
  induction cs with
  | nil => intro d _ _; simp [nullsLoop]
  | cons c cs ih =>
    intro d hnd hdisj
    have hstep : nullsLoop (pureEnv df) (c :: cs) d
        = nullsLoop (pureEnv df) cs (pyDictInsert d c (nullCountPure df c)) := rfl
    rw [hstep, pyDictInsert_append d c _ (hdisj c (by simp))]
    rw [ih _ hnd.of_cons ?_]
    · simp
    · intro c2 hc2
      have hd := hdisj c2 (by simp [hc2])
      have hne : ¬(c2 = c) := by
        intro hh
        exact (List.nodup_cons.mp hnd).1 (hh ▸ hc2)
      simp [hd, hne]

/-- find_nulls on the pure engine: the status is decided by the sum of the
per-key-column null counts and the details list both the total and the
per-column breakdown. -/
theorem find_nulls_pure (df : DataFrame) (keys : List String) (lud : Option String)
    (hnd : keys.Nodup) :
    find_nulls_body (pureState df keys lud) (pureEnv df)
      = .ok (if (keys.map (fun c => nullCountPure df c)).sum = 0 then "Passed" else "Failed",
             J.obj [("total_null_count", J.n (keys.map (fun c => nullCountPure df c)).sum),
                    ("nulls_by_column",
                      J.obj (keys.map (fun c => (c, J.n (nullCountPure df c)))))]) := by
  have hloop := nullsLoop_pure df keys [] hnd (by simp)
  simp only [find_nulls_body, pureState, hloop, except_bind_ok, List.nil_append]
  simp only [List.map_map]
  rfl

/-- C8: find_nulls counts, for each key column independently, the rows in
which that column is null; the status is Passed exactly when the sum of
these counts over the key columns is zero, and the details give the total
and the per-column breakdown (a row that is null in several key columns
contributes once per column). -/
theorem find_nulls_spec :
    ∀ (df : DataFrame) (keys : List String) (lud : Option String) (ts : String),
      keys.Nodup →
      ((guardCheck ts (find_nulls_body (pureState df keys lud) (pureEnv df))).status
          = "Passed"
        ↔ (keys.map (fun c => nullCountPure df c)).sum = 0)
      ∧ ((guardCheck ts (find_nulls_body (pureState df keys lud) (pureEnv df))).status
          = "Failed"
        ↔ (keys.map (fun c => nullCountPure df c)).sum ≠ 0)
      ∧ (guardCheck ts (find_nulls_body (pureState df keys lud) (pureEnv df))).details
          = J.obj [("total_null_count", J.n (keys.map (fun c => nullCountPure df c)).sum),
                   ("nulls_by_column",
                     J.obj (keys.map (fun c => (c, J.n (nullCountPure df c)))))] := by
  intro df keys lud ts hnd
  rw [find_nulls_pure df keys lud hnd]
  by_cases h : (keys.map (fun c => nullCountPure df c)).sum = 0
  · rw [if_pos h]
    refine ⟨⟨fun _ => h, fun _ => rfl⟩, ⟨fun hs => ?_, fun hs => absurd h hs⟩, rfl⟩
    have hs2 : ("Passed" : String) = "Failed" := hs
    exact absurd hs2 (by decide)
  · rw [if_neg h]
    refine ⟨⟨fun hs => ?_, fun hs => absurd hs h⟩, ⟨fun _ => h, fun _ => rfl⟩, rfl⟩
    have hs2 : ("Failed" : String) = "Passed" := hs
    exact absurd hs2 (by decide)

/-- A two-key-column dataset whose first row is null in both key columns. -/
def dfW8 : DataFrame :=
  { cols := ["a", "b"],
    rows := [[("a", Value.null), ("b", Value.null)],
             [("a", Value.num 1), ("b", Value.num 2)]] }

/-- Witness for C8: one row null in both key columns gives a total of two
null counts (once per column) and status Failed. -/
theorem find_nulls_spec_witness :
    (guardCheck "t" (find_nulls_body (pureState dfW8 ["a", "b"] none) (pureEnv dfW8))).status
      = "Failed"
    ∧ (["a", "b"].map (fun c => nullCountPure dfW8 c)).sum = 2 := by
  have h := find_nulls_spec dfW8 ["a", "b"] none "t" (by decide)
  exact ⟨h.2.1.mpr (by decide), by decide⟩

/-- No duplicated key group exists exactly when every key tuple occurs at
most once. -/
theorem dupGroup_zero_iff (df : DataFrame) (keys : List String) :
    dupGroupCountPure df keys = 0
      ↔ ∀ t ∈ df.rows.map (keyTuple keys), (df.rows.map (keyTuple keys)).count t ≤ 1 := by
  simp [dupGroupCountPure, List.length_eq_zero, List.filter_eq_nil_iff, List.mem_dedup,
    decide_eq_true_eq, Nat.not_lt]

/-- Some duplicated key group exists exactly when some key tuple occurs more
than once. -/
theorem dupGroup_pos_iff (df : DataFrame) (keys : List String) :
    dupGroupCountPure df keys ≠ 0
      ↔ ∃ t ∈ df.rows.map (keyTuple keys), 1 < (df.rows.map (keyTuple keys)).count t := by
  rw [Ne, dupGroup_zero_iff]
  push_neg
  rfl

/-- C6: find_duplicates passes exactly when no key-column combination occurs
in more than one row, and the reported count is the number of distinct
duplicated key combinations (each group of identical key tuples contributes
one), not a row count. -/
theorem find_duplicates_spec :
    ∀ (df : DataFrame) (keys : List String) (lud : Option String) (ts : String),
      ((guardCheck ts (find_duplicates_body (pureState df keys lud) (pureEnv df))).status
          = "Passed"
        ↔ ∀ t ∈ df.rows.map (keyTuple keys), (df.rows.map (keyTuple keys)).count t ≤ 1)
      ∧ ((guardCheck ts (find_duplicates_body (pureState df keys lud) (pureEnv df))).status
          = "Failed"
        ↔ ∃ t ∈ df.rows.map (keyTuple keys), 1 < (df.rows.map (keyTuple keys)).count t)
      ∧ (guardCheck ts (find_duplicates_body (pureState df keys lud) (pureEnv df))).details
          = J.obj [("duplicated_rows_count",
              J.n (((df.rows.map (keyTuple keys)).dedup.filter
                (fun t => decide (1 < (df.rows.map (keyTuple keys)).count t))).length))] := by
  intro df keys lud ts
  have hbody : find_duplicates_body (pureState df keys lud) (pureEnv df)
      = .ok (if dupGroupCountPure df keys = 0 then "Passed" else "Failed",
             J.obj [("duplicated_rows_count", J.n (dupGroupCountPure df keys))]) := rfl
  rw [hbody]
  by_cases h : dupGroupCountPure df keys = 0
  · rw [if_pos h]
    refine ⟨⟨fun _ => (dupGroup_zero_iff df keys).mp h, fun _ => rfl⟩,
            ⟨fun hs => ?_, fun hs => absurd ((dupGroup_pos_iff df keys).mpr hs) (fun hh => hh h)⟩,
            rfl⟩
    have hs2 : ("Passed" : String) = "Failed" := hs
    exact absurd hs2 (by decide)
  · rw [if_neg h]
    refine ⟨⟨fun hs => ?_, fun hall => absurd ((dupGroup_zero_iff df keys).mpr hall) h⟩,
            ⟨fun _ => (dupGroup_pos_iff df keys).mp h, fun _ => rfl⟩,
            rfl⟩
    have hs2 : ("Failed" : String) = "Passed" := hs
    exact absurd hs2 (by decide)

/-- On the pure engine with a non-empty table, the completeness loop builds
the rendered percentage dictionary in column order and flags failure exactly
when some processed column exceeds the threshold. -/
theorem ccLoop_pure (df : DataFrame) (tc : Nat) (htc : ¬(tc = 0)) :
    ∀ (cs : List String) (d : List (String × J)) (flag : Bool),
      cs.Nodup → (∀ c ∈ cs, c ∉ d.map Prod.fst) →
      ccLoop (pureEnv df) tc cs d flag
        = .ok (d ++ cs.map (fun c =>
              (c, J.s (toString (pyInt (((nullCountPure df c : ℚ)) / ((tc : ℚ)) * 100)) ++ "%"))),
            flag || cs.any (fun c => decide (5 < ((nullCountPure df c : ℚ)) / ((tc : ℚ)) * 100))) := by
  intro cs
  induction cs with
  | nil => intro d flag _ _; simp [ccLoop]
  | cons c cs ih =>
    intro d flag hnd hdisj
    have hstep : ccLoop (pureEnv df) tc (c :: cs) d flag
        = if tc = 0 then Except.error "division by zero"
          else ccLoop (pureEnv df) tc cs
            (pyDictInsert d c
              (J.s (toString (pyInt (((nullCountPure df c : ℚ)) / ((tc : ℚ)) * 100)) ++ "%")))
            (flag || decide (5 < ((nullCountPure df c : ℚ)) / ((tc : ℚ)) * 100)) := rfl
    rw [hstep, if_neg htc, pyDictInsert_append d c _ (hdisj c (by simp))]
    rw [ih _ _ hnd.of_cons ?_]
    · simp [List.any_cons, Bool.or_assoc]
    · intro c2 hc2
      have hd := hdisj c2 (by simp [hc2])
      have hne : ¬(c2 = c) := by
        intro hh
        exact (List.nodup_cons.mp hnd).1 (hh ▸ hc2)
      simp [hd, hne]

/-- The non-key column list is duplicate-free. -/
theorem nonKeyColumns_nodup (st : DQState) : (nonKeyColumns st).Nodup :=
  (List.nodup_dedup st.table_columns).filter _

/-- check_completeness on the pure engine with a non-empty table: Skipped
when every column is a key column, otherwise the threshold decision over
the non-key columns with the rendered percentage dictionary. -/
theorem check_completeness_pure (df : DataFrame) (keys : List String) (lud : Option String)
    (htc : ¬(df.rows.length = 0)) :
    check_completeness_body (pureState df keys lud) (pureEnv df)
      = if (nonKeyColumns (pureState df keys lud)).isEmpty
        then .ok ("Skipped", J.s "Every column is a key column")
        else .ok
          ((if (nonKeyColumns (pureState df keys lud)).any
               (fun c => decide (5 < ((nullCountPure df c : ℚ)) / ((df.rows.length : ℚ)) * 100))
            then "Failed" else "Passed"),
           J.obj [("nulls_percentage_by_column",
             J.obj ((nonKeyColumns (pureState df keys lud)).map (fun c =>
               (c, J.s (toString
                    (pyInt (((nullCountPure df c : ℚ)) / ((df.rows.length : ℚ)) * 100))
                  ++ "%")))))]) := by
  by_cases hemp : (nonKeyColumns (pureState df keys lud)).isEmpty
  · rw [if_pos hemp]
    simp only [check_completeness_body, hemp]
    rfl
  · rw [if_neg hemp]
    have hloop := ccLoop_pure df df.rows.length htc (nonKeyColumns (pureState df keys lud))
      [] false (nonKeyColumns_nodup _) (by simp)
    simp only [check_completeness_body, hemp, Bool.false_eq_true, if_false]
    have htcs : (pureState df keys lud).table_count = df.rows.length := rfl
    rw [htcs, hloop, except_bind_ok]
    simp only [Bool.false_or, List.nil_append]
    rfl

/-- C5: for a dataset with at least one non-key column, check_completeness
fails exactly when some non-key column has an untruncated null percentage
strictly above 5 (so exactly 5 percent passes), and reports each percentage
truncated to an integer with a percent sign; with no non-key column the
check is Skipped with an explanatory message. -/
theorem check_completeness_spec :
    ∀ (df : DataFrame) (keys : List String) (lud : Option String) (ts : String),
      ¬(df.rows.length = 0) →
      ((nonKeyColumns (pureState df keys lud) = [] →
        (guardCheck ts (check_completeness_body (pureState df keys lud) (pureEnv df))).status
            = "Skipped"
        ∧ (guardCheck ts (check_completeness_body (pureState df keys lud) (pureEnv df))).details
            = J.s "Every column is a key column")
      ∧ (nonKeyColumns (pureState df keys lud) ≠ [] →
        ((guardCheck ts (check_completeness_body (pureState df keys lud) (pureEnv df))).status
            = "Failed"
          ↔ ∃ c ∈ nonKeyColumns (pureState df keys lud),
              5 < ((nullCountPure df c : ℚ)) / ((df.rows.length : ℚ)) * 100)
        ∧ ((guardCheck ts (check_completeness_body (pureState df keys lud) (pureEnv df))).status
            = "Passed"
          ↔ ∀ c ∈ nonKeyColumns (pureState df keys lud),
              ((nullCountPure df c : ℚ)) / ((df.rows.length : ℚ)) * 100 ≤ 5)
        ∧ (guardCheck ts (check_completeness_body (pureState df keys lud) (pureEnv df))).details
            = J.obj [("nulls_percentage_by_column",
                J.obj ((nonKeyColumns (pureState df keys lud)).map (fun c =>
                  (c, J.s (toString
                       (pyInt (((nullCountPure df c : ℚ)) / ((df.rows.length : ℚ)) * 100))
                     ++ "%")))))])) := by
  intro df keys lud ts htc
  rw [check_completeness_pure df keys lud htc]
  by_cases hemp : (nonKeyColumns (pureState df keys lud)).isEmpty
  · rw [if_pos hemp]
    refine ⟨fun _ => ⟨rfl, rfl⟩, fun hne => absurd (List.isEmpty_iff.mp hemp) hne⟩
  · rw [if_neg hemp]
    refine ⟨fun h0 => absurd (List.isEmpty_iff.mpr h0) hemp, fun _ => ?_⟩
    by_cases hany : (nonKeyColumns (pureState df keys lud)).any
        (fun c => decide (5 < ((nullCountPure df c : ℚ)) / ((df.rows.length : ℚ)) * 100)) = true
    · rw [if_pos hany]
      have hex : ∃ c ∈ nonKeyColumns (pureState df keys lud),
          5 < ((nullCountPure df c : ℚ)) / ((df.rows.length : ℚ)) * 100 := by
        simpa [List.any_eq_true, decide_eq_true_eq] using hany
      refine ⟨⟨fun _ => hex, fun _ => rfl⟩, ⟨fun hs => ?_, fun hall => ?_⟩, rfl⟩
      · have hs2 : ("Failed" : String) = "Passed" := hs
        exact absurd hs2 (by decide)
      · obtain ⟨c, hc, hgt⟩ := hex
        exact absurd (hall c hc) (not_le.mpr hgt)
    · rw [if_neg hany]
      have hall : ∀ c ∈ nonKeyColumns (pureState df keys lud),
          ((nullCountPure df c : ℚ)) / ((df.rows.length : ℚ)) * 100 ≤ 5 := by
        intro c hc
        by_contra hlt
        exact hany (List.any_eq_true.mpr ⟨c, hc, decide_eq_true (not_le.mp hlt)⟩)
      refine ⟨⟨fun hs => ?_, fun hex => ?_⟩, ⟨fun _ => hall, fun _ => rfl⟩, rfl⟩
      · have hs2 : ("Passed" : String) = "Failed" := hs
        exact absurd hs2 (by decide)
      · obtain ⟨c, hc, hgt⟩ := hex
        exact absurd (hall c hc) (not_le.mpr hgt)

/-- A twenty-row dataset whose non-key column v is null in exactly one row:
a five percent null rate. -/
def dfW5 : DataFrame :=
  { cols := ["k", "v"],
    rows := List.replicate 19 [("k", Value.num 1), ("v", Value.num 2)]
              ++ [[("k", Value.num 1), ("v", Value.null)]] }

/-- Witness for C5: a column with exactly five percent nulls passes the
completeness check (the threshold is strict). -/
theorem check_completeness_spec_witness :
    (guardCheck "t" (check_completeness_body (pureState dfW5 ["k"] none) (pureEnv dfW5))).status
      = "Passed" := by
  have h := check_completeness_spec dfW5 ["k"] none "t" (by decide)
  refine ((h.2 (by decide)).2.1).mpr ?_
  intro c hc
  have hnk : nonKeyColumns (pureState dfW5 ["k"] none) = ["v"] := by decide
  rw [hnk] at hc
  have hc2 : c = "v" := by simpa using hc
  subst hc2
  have h1 : nullCountPure dfW5 "v" = 1 := by decide
  have h2 : dfW5.rows.length = 20 := by decide
  rw [h1, h2]
  norm_num

/-- values_range cannot finish with any status other than Passed. -/
theorem values_range_status (st : DQState) (env : QueryEnv) (p : CheckOut)
    (h : values_range_body st env = .ok p) : p.1 = "Passed" := by
  unfold values_range_body at h
  cases hl : vrLoop env (nonKeyColumns st) [] with
  | error e =>
    rw [hl, except_bind_error] at h
    cases h
  | ok l =>
    rw [hl, except_bind_ok] at h
    cases h
    rfl

/-- key_density cannot finish with any status other than Passed. -/
theorem key_density_status (st : DQState) (env : QueryEnv) (q : CheckOut)
    (h : key_density_body st env = .ok q) : q.1 = "Passed" := by
  unfold key_density_body at h
  cases hl : kdLoop env st.key_columns [] with
  | error e =>
    rw [hl, except_bind_error] at h
    cases h
  | ok l =>
    rw [hl, except_bind_ok] at h
    cases h
    rfl

/-- The values_range report entry of one numeric column. -/
def vrEntry (df : DataFrame) (c : String) : J :=
  J.obj [("max", J.s (strOfValue (vmaxPure (colValues df c)))),
         ("min", J.s (strOfValue (vminPure (colValues df c)))),
         ("avg", J.s (strOfValue (vavgPure (colValues df c))))]

/-- On the pure engine the values_range loop succeeds and its dictionary
holds exactly the processed columns whose max value converts to a number. -/
theorem vrLoop_pure (df : DataFrame) :
    ∀ (cs : List String) (d : List (String × J)),
      ∃ l, vrLoop (pureEnv df) cs d = .ok l
        ∧ ∀ c, l.lookup c
            = if c ∈ cs ∧ canFloat (vmaxPure (colValues df c)) = true
              then some (vrEntry df c) else d.lookup c := by
  intro cs
  induction cs with
  | nil =>
    intro d
    exact ⟨d, rfl, fun c => by simp⟩
  | cons c0 cs ih =>
    intro d
    have hstep : vrLoop (pureEnv df) (c0 :: cs) d
        = if canFloat (vmaxPure (colValues df c0)) = true
          then vrLoop (pureEnv df) cs (pyDictInsert d c0 (vrEntry df c0))
          else vrLoop (pureEnv df) cs d := rfl
    by_cases hcf : canFloat (vmaxPure (colValues df c0)) = true
    · obtain ⟨l, hl, hlook⟩ := ih (pyDictInsert d c0 (vrEntry df c0))
      refine ⟨l, by rw [hstep, if_pos hcf]; exact hl, fun c => ?_⟩
      rw [hlook c, pyDictInsert_lookup]
      by_cases hc : c ∈ cs ∧ canFloat (vmaxPure (colValues df c)) = true
      · rw [if_pos hc, if_pos ⟨List.mem_cons_of_mem c0 hc.1, hc.2⟩]
      · rw [if_neg hc]
        by_cases hc0 : c = c0
        · subst hc0
          rw [if_pos rfl, if_pos ⟨List.mem_cons_self c cs, hcf⟩]
        · rw [if_neg hc0, if_neg ?_]
          rintro ⟨hmem, hcan⟩
          rcases List.mem_cons.mp hmem with h0 | h0
          · exact hc0 h0
          · exact hc ⟨h0, hcan⟩
    · obtain ⟨l, hl, hlook⟩ := ih d
      refine ⟨l, by rw [hstep, if_neg hcf]; exact hl, fun c => ?_⟩
      rw [hlook c]
      by_cases hc : c ∈ cs ∧ canFloat (vmaxPure (colValues df c)) = true
      · rw [if_pos hc, if_pos ⟨List.mem_cons_of_mem c0 hc.1, hc.2⟩]
      · rw [if_neg hc, if_neg ?_]
        rintro ⟨hmem, hcan⟩
        rcases List.mem_cons.mp hmem with h0 | h0
        · exact hcf (h0 ▸ hcan)
        · exact hc ⟨h0, hcan⟩

/-- On the pure engine the key_density loop always succeeds. -/
theorem kdLoop_pure_ok (df : DataFrame) :
    ∀ (cs : List String) (d : List (String × J)), ∃ l, kdLoop (pureEnv df) cs d = .ok l := by
  intro cs
  induction cs with
  | nil => intro d; exact ⟨d, rfl⟩
  | cons c cs ih => intro d; exact ih _

/-- C7: values_range and key_density can only return status Passed when
they complete without a query exception, and values_range lists a non-key
column exactly when the max value of that column can be interpreted as a
number, silently skipping the others. -/
theorem profiling_checks_spec :
    ∀ (st : DQState) (env : QueryEnv) (p q : CheckOut) (df : DataFrame)
      (keys : List String) (lud : Option String) (c : String),
      (values_range_body st env = .ok p → p.1 = "Passed")
      ∧ (key_density_body st env = .ok q → q.1 = "Passed")
      ∧ (∃ l, values_range_body (pureState df keys lud) (pureEnv df)
            = .ok ("Passed", J.obj [("values_range_details", J.obj l)])
          ∧ (l.lookup c ≠ none
              ↔ c ∈ nonKeyColumns (pureState df keys lud)
                ∧ canFloat (vmaxPure (colValues df c)) = true))
      ∧ (∃ m, key_density_body (pureState df keys lud) (pureEnv df)
            = .ok ("Passed", J.obj [("key_density_details", J.obj m)])) := by
  intro st env p q df keys lud c
  refine ⟨values_range_status st env p, key_density_status st env q, ?_, ?_⟩
  · obtain ⟨l, hl, hlook⟩ := vrLoop_pure df (nonKeyColumns (pureState df keys lud)) []
    refine ⟨l, ?_, ?_⟩
    · unfold values_range_body
      rw [hl, except_bind_ok]
      rfl
    · rw [hlook c]
      by_cases hc : c ∈ nonKeyColumns (pureState df keys lud)
          ∧ canFloat (vmaxPure (colValues df c)) = true
      · simp [hc]
      · simp [hc]
  · obtain ⟨m, hm⟩ := kdLoop_pure_ok df keys []
    refine ⟨m, ?_⟩
    unfold key_density_body
    have hkeys : (pureState df keys lud).key_columns = keys := rfl
    rw [hkeys, hm, except_bind_ok]
    rfl

/-- A dataset with one key column, a numeric non-key column and a string
non-key column. -/
def dfW7 : DataFrame :=
  { cols := ["k", "v", "s"],
    rows := [[("k", Value.num 1), ("v", Value.num 2), ("s", Value.str "x")],
             [("k", Value.num 2), ("v", Value.null), ("s", Value.str "y")]] }

/-- Witness for C7: on a concrete dataset both profiling checks complete
with status Passed. -/
theorem profiling_checks_spec_witness :
    (guardCheck "t" (values_range_body (pureState dfW7 ["k"] none) (pureEnv dfW7))).status
        = "Passed"
    ∧ (guardCheck "t" (key_density_body (pureState dfW7 ["k"] none) (pureEnv dfW7))).status
        = "Passed" := by
  obtain ⟨-, -, ⟨l, hl, hv⟩, ⟨m, hm⟩⟩ :=
    profiling_checks_spec (pureState dfW7 ["k"] none) (pureEnv dfW7)
      ("Passed", J.null) ("Passed", J.null) dfW7 ["k"] none "v"
  have hps := (profiling_checks_spec (pureState dfW7 ["k"] none) (pureEnv dfW7)
      ("Passed", J.obj [("values_range_details", J.obj l)])
      ("Passed", J.obj [("key_density_details", J.obj m)]) dfW7 ["k"] none "v").1 hl
  constructor
  · rw [hl]
    rfl
  · rw [hm]
    rfl

/-- The character-list comparison is total. -/
theorem charListLe_total : ∀ (as bs : List Char),
    charListLe as bs = true ∨ charListLe bs as = true := by
  intro as
  induction as with
  | nil => intro bs; left; rfl
  | cons a as ih =>
    intro bs
    cases bs with
    | nil => right; rfl
    | cons b bs =>
      by_cases h1 : a.toNat < b.toNat
      · left; simp [charListLe, h1]
      · by_cases h2 : b.toNat < a.toNat
        · right; simp [charListLe, h2]
        · rcases ih bs with h | h
          · left; simp [charListLe, h1, h2, h]
          · right; simp [charListLe, h1, h2, h]

/-- The character-list comparison is transitive. -/
theorem charListLe_trans : ∀ (as bs cs : List Char),
    charListLe as bs = true → charListLe bs cs = true → charListLe as cs = true := by
  intro as
  induction as with
  | nil => intro bs cs _ _; rfl
  | cons a as ih =>
    intro bs cs h1 h2
    cases bs with
    | nil => simp [charListLe] at h1
    | cons b bs =>
      cases cs with
      | nil => simp [charListLe] at h2
      | cons c cs =>
        by_cases hab : a.toNat < b.toNat
        · by_cases hbc : b.toNat < c.toNat
          · simp [charListLe, show a.toNat < c.toNat by omega]
          · by_cases hcb : c.toNat < b.toNat
            · simp [charListLe, hbc, hcb] at h2
            · simp [charListLe, show a.toNat < c.toNat by omega]
        · by_cases hba : b.toNat < a.toNat
          · simp [charListLe, hab, hba] at h1
          · simp only [charListLe, if_neg hab, if_neg hba] at h1
            by_cases hbc : b.toNat < c.toNat
            · simp [charListLe, show a.toNat < c.toNat by omega]
            · by_cases hcb : c.toNat < b.toNat
              · simp [charListLe, hbc, hcb] at h2
              · simp only [charListLe, if_neg hbc, if_neg hcb] at h2
                simp only [charListLe, if_neg (show ¬(a.toNat < c.toNat) by omega),
                  if_neg (show ¬(c.toNat < a.toNat) by omega)]
                exact ih bs cs h1 h2

/-- The value comparison is total. -/
theorem vle_total : ∀ (a b : Value), vle a b = true ∨ vle b a = true := by
  intro a b
  cases a with
  | null => left; cases b <;> rfl
  | num qa =>
    cases b with
    | null => right; rfl
    | num qb =>
      rcases le_total qa qb with h | h
      · left; simp [vle, h]
      · right; simp [vle, h]
    | str sb => left; rfl
  | str sa =>
    cases b with
    | null => right; rfl
    | num qb => right; rfl
    | str sb => exact charListLe_total sa.data sb.data

/-- The value comparison is transitive. -/
theorem vle_trans : ∀ (a b c : Value),
    vle a b = true → vle b c = true → vle a c = true := by
  intro a b c h1 h2
  cases a with
  | null => cases c <;> rfl
  | num qa =>
    cases b with
    | null => simp [vle] at h1
    | num qb =>
      cases c with
      | null => simp [vle] at h2
      | num qc =>
        simp only [vle, decide_eq_true_eq] at h1 h2 ⊢
        exact le_trans h1 h2
      | str sc => rfl
    | str sb =>
      cases c with
      | null => simp [vle] at h2
      | num qc => simp [vle] at h2
      | str sc => rfl
  | str sa =>
    cases b with
    | null => simp [vle] at h1
    | num qb => simp [vle] at h1
    | str sb =>
      cases c with
      | null => simp [vle] at h2
      | num qc => simp [vle] at h2
      | str sc => exact charListLe_trans sa.data sb.data sc.data h1 h2

/-- The group list ordered by value descending: earlier entries compare at
least as large. -/
def descOrdered (l : List (Value × Nat)) : Prop :=
  l.Pairwise (fun a b => vle b.1 a.1 = true)

/-- Descending insertion permutes nothing away. -/
theorem perm_insertByDesc (p : Value × Nat) :
    ∀ (l : List (Value × Nat)), (insertByDesc p l).Perm (p :: l) := by
  intro l
  induction l with
  | nil => exact List.Perm.refl _
  | cons q qs ih =>
    by_cases h : vle q.1 p.1 = true
    · simp only [insertByDesc, if_pos h]
      exact List.Perm.refl _
    · simp only [insertByDesc, if_neg h]
      exact (ih.cons q).trans (List.Perm.swap p q qs)

/-- The sort is a permutation of its input. -/
theorem perm_sortByDesc : ∀ (l : List (Value × Nat)), (sortByDesc l).Perm l := by
  intro l
  induction l with
  | nil => exact List.Perm.refl _
  | cons p ps ih =>
    have hstep : sortByDesc (p :: ps) = insertByDesc p (sortByDesc ps) := rfl
    rw [hstep]
    exact (perm_insertByDesc p (sortByDesc ps)).trans (ih.cons p)

/-- Descending insertion preserves the descending order. -/
theorem descOrdered_insertByDesc (p : Value × Nat) :
    ∀ (l : List (Value × Nat)), descOrdered l → descOrdered (insertByDesc p l) := by
  intro l
  induction l with
  | nil => intro _; simp [insertByDesc, descOrdered]
  | cons q qs ih =>
    intro hl
    obtain ⟨hq, hqs⟩ := List.pairwise_cons.mp hl
    by_cases h : vle q.1 p.1 = true
    · simp only [insertByDesc, if_pos h]
      refine List.pairwise_cons.mpr ⟨?_, hl⟩
      intro x hx
      rcases List.mem_cons.mp hx with h0 | h0
      · exact h0 ▸ h
      · exact vle_trans x.1 q.1 p.1 (hq x h0) h
    · simp only [insertByDesc, if_neg h]
      have hp : vle p.1 q.1 = true := (vle_total q.1 p.1).resolve_left h
      refine List.pairwise_cons.mpr ⟨?_, ih hqs⟩
      intro x hx
      have hx2 : x ∈ p :: qs := (perm_insertByDesc p qs).subset hx
      rcases List.mem_cons.mp hx2 with h0 | h0
      · exact h0 ▸ hp
      · exact hq x h0

/-- The sort orders the group list by value descending. -/
theorem descOrdered_sortByDesc : ∀ (l : List (Value × Nat)), descOrdered (sortByDesc l) := by
  intro l
  induction l with
  | nil => simp [sortByDesc, descOrdered]
  | cons p ps ih =>
    have hstep : sortByDesc (p :: ps) = insertByDesc p (sortByDesc ps) := rfl
    rw [hstep]
    exact descOrdered_insertByDesc p (sortByDesc ps) ih

/-- Field access on a JSON object. -/
def jGet (j : J) (k : String) : Option J :=
  match j with
  | .obj fs => fs.lookup k
  | _ => none

/-- Nested field access on a JSON object. -/
def jGet2 (j : J) (k1 k2 : String) : Option J :=
  match jGet j k1 with
  | some j2 => jGet j2 k2
  | none => none

/-- last_luds_avg of the source, line 314: the average of the counts at
positions 2 to 7 of the descending group list. -/
def ludLastAvg (rest : List (Value × Nat)) : ℚ :=
  (((((rest.take 6).map Prod.snd)).sum : ℚ)) / (((((rest.take 6).map Prod.snd)).length : ℚ))

/-- The guarded division of source line 316: current count over the average
of the six prior counts, zero when that average is not positive. -/
def ludRatio (curr : Value × Nat) (rest : List (Value × Nat)) : ℚ :=
  if 0 < ludLastAvg rest then ((curr.2 : ℚ)) / ludLastAvg rest else 0

/-- The four density fields of the lud report, source lines 297-308. -/
def ludBase (pairs : List (Value × Nat)) (avgQ : ℚ) : List (String × J) :=
  [("max_count",
      J.obj [("value", jOfOptStr ((pairs.find?
                (fun p => some p.2 == listMaxNat (pairs.map Prod.snd))).map
                  (fun p => strOfValue p.1))),
             ("count", J.s (strOfOptNat (listMaxNat (pairs.map Prod.snd))))]),
   ("min_count",
      J.obj [("value", jOfOptStr ((pairs.find?
                (fun p => some p.2 == listMinNat (pairs.map Prod.snd))).map
                  (fun p => strOfValue p.1))),
             ("count", J.s (strOfOptNat (listMinNat (pairs.map Prod.snd))))]),
   ("avg_count", J.s (strOfQ avgQ)),
   ("distinct_values", J.s (toString pairs.length))]

/-- The moving_average payload of the lud report in the sufficient-history
case, source lines 319-328. -/
def ludMoving (curr : Value × Nat) (rest : List (Value × Nat)) : J :=
  J.obj [("last_luds_avg", J.s (strOfQ (ludLastAvg rest))),
         ("current_count", J.s (toString curr.2)),
         ("ratio_to_average", J.s (strOfQ (ludRatio curr rest))),
         ("below_acceptable_average", J.b (decide (ludRatio curr rest < 2 / 5))),
         ("dates_analyzed",
           J.obj [("current_date", J.s (strOfValue curr.1)),
                  ("analyzed_dates",
                    J.arr ((rest.take 6).map (fun p => J.s (strOfValue p.1))))])]

/-- The moving_average payload in the insufficient-history case, source
lines 330-332. -/
def ludInsufficient : J :=
  J.obj [("error", J.s "Insufficient data for moving average calculation")]

/-- The lud_density body on an engine whose two queries succeed with a
non-empty group list: the branches of the source lines 310-337. -/
theorem lud_density_body_ok (st : DQState) (env : QueryEnv) (lud : String)
    (q0 : Value × Nat) (qs : List (Value × Nat)) (ordered : List (Value × Nat))
    (hpairs : env.groupCount lud = .ok (q0 :: qs))
    (hord : env.orderedGroupCountDesc lud = .ok ordered) :
    lud_density_body st env lud
      = match ordered with
        | curr :: rest =>
          if 6 ≤ rest.length
          then .ok ((if decide (ludRatio curr rest < 2 / 5) then "Failed" else "Passed"),
                J.obj (ludBase (q0 :: qs)
                    ((((((q0 :: qs).map Prod.snd)).sum : ℚ))
                      / (((((q0 :: qs).map Prod.snd)).length : ℚ)))
                  ++ [("moving_average", ludMoving curr rest)]))
          else .ok ("Failed",
                J.obj (ludBase (q0 :: qs)
                    ((((((q0 :: qs).map Prod.snd)).sum : ℚ))
                      / (((((q0 :: qs).map Prod.snd)).length : ℚ)))
                  ++ [("moving_average", ludInsufficient)]))
        | [] => .ok ("Failed",
                J.obj (ludBase (q0 :: qs)
                    ((((((q0 :: qs).map Prod.snd)).sum : ℚ))
                      / (((((q0 :: qs).map Prod.snd)).length : ℚ)))
                  ++ [("moving_average", ludInsufficient)])) := by
  unfold lud_density_body
  rw [hpairs, except_bind_ok]
  simp only [List.map_cons, avgCounts]
  simp only [hord, except_bind_ok]
  cases ordered with
  | nil => rfl
  | cons curr rest => rfl

/-- A non-empty table groups into a non-empty value list. -/
theorem groupPairs_ne_nil (df : DataFrame) (c : String) (h : df.rows ≠ []) :
    groupPairs df c ≠ [] := by
  intro hnil
  apply h
  simp only [groupPairs] at hnil
  have h1 : (colValues df c).dedup = [] := List.map_eq_nil_iff.mp hnil
  have h2 : colValues df c = [] := by rwa [List.dedup_eq_nil] at h1
  simp only [colValues] at h2
  exact List.map_eq_nil_iff.mp h2

/-- Status of a guarded successful check. -/
theorem guard_ok_status (ts : String) (s : String) (d : J) :
    (guardCheck ts (Except.ok (s, d))).status = s := rfl

/-- C3: with a truthy time column configured the check contributes its
entry; the distinct (value, count) groups are ordered by value descending;
with at least 7 distinct values the current count, the average of the six
prior counts and their guarded quotient decide the status (Failed exactly
when the quotient is below 0.4) and are recorded in the details; with fewer
than 7 distinct values the details carry the insufficient-data marker and
the status is Failed. -/
theorem lud_density_spec :
    ∀ (df : DataFrame) (keys : List String) (c : String) (ts : String),
      df.rows ≠ [] → c.isEmpty = false →
      ((lud_density_check (pureState df keys (some c)) (pureEnv df) ts []).lookup "lud_density"
          = some (guardCheck ts (lud_density_body (pureState df keys (some c)) (pureEnv df) c))
      ∧ descOrdered (sortByDesc (groupPairs df c))
      ∧ (sortByDesc (groupPairs df c)).Perm (groupPairs df c)
      ∧ (∀ curr rest, sortByDesc (groupPairs df c) = curr :: rest → 6 ≤ rest.length →
          (((guardCheck ts
                (lud_density_body (pureState df keys (some c)) (pureEnv df) c)).status
              = "Failed" ↔ ludRatio curr rest < 2 / 5)
          ∧ ((guardCheck ts
                (lud_density_body (pureState df keys (some c)) (pureEnv df) c)).status
              = "Passed" ↔ ¬(ludRatio curr rest < 2 / 5))
          ∧ jGet2 (guardCheck ts
                (lud_density_body (pureState df keys (some c)) (pureEnv df) c)).details
              "moving_average" "current_count" = some (J.s (toString curr.2))
          ∧ jGet2 (guardCheck ts
                (lud_density_body (pureState df keys (some c)) (pureEnv df) c)).details
              "moving_average" "last_luds_avg" = some (J.s (strOfQ (ludLastAvg rest)))
          ∧ jGet2 (guardCheck ts
                (lud_density_body (pureState df keys (some c)) (pureEnv df) c)).details
              "moving_average" "ratio_to_average" = some (J.s (strOfQ (ludRatio curr rest)))
          ∧ jGet2 (guardCheck ts
                (lud_density_body (pureState df keys (some c)) (pureEnv df) c)).details
              "moving_average" "below_acceptable_average"
              = some (J.b (decide (ludRatio curr rest < 2 / 5)))))
      ∧ ((sortByDesc (groupPairs df c)).length < 7 →
          (guardCheck ts
              (lud_density_body (pureState df keys (some c)) (pureEnv df) c)).status
            = "Failed"
          ∧ jGet2 (guardCheck ts
                (lud_density_body (pureState df keys (some c)) (pureEnv df) c)).details
              "moving_average" "error"
              = some (J.s "Insufficient data for moving average calculation"))) := by
  intro df keys c ts hrows hce
  obtain ⟨q0, qs, hps⟩ := List.exists_cons_of_ne_nil (groupPairs_ne_nil df c hrows)
  have hpairs : (pureEnv df).groupCount c = .ok (q0 :: qs) := by
    show Except.ok (groupPairs df c) = _
    rw [hps]
  have hordq : ∀ ord, sortByDesc (groupPairs df c) = ord →
      (pureEnv df).orderedGroupCountDesc c = .ok ord := by
    intro ord h
    show Except.ok (sortByDesc (groupPairs df c)) = _
    rw [h]
  refine ⟨?_, descOrdered_sortByDesc _, perm_sortByDesc _, ?_, ?_⟩
  · simp only [lud_density_check, pureState, hce, Bool.false_eq_true, if_false,
      runCheck, pyDictInsert]
    rfl
  · intro curr rest hord hlen
    have hbody := lud_density_body_ok (pureState df keys (some c)) (pureEnv df) c q0 qs
      (curr :: rest) hpairs (hordq _ hord)
    have hbody2 : lud_density_body (pureState df keys (some c)) (pureEnv df) c
        = .ok ((if decide (ludRatio curr rest < 2 / 5) then "Failed" else "Passed"),
               J.obj (ludBase (q0 :: qs)
                   ((((((q0 :: qs).map Prod.snd)).sum : ℚ))
                     / (((((q0 :: qs).map Prod.snd)).length : ℚ)))
                 ++ [("moving_average", ludMoving curr rest)])) := by
      rw [hbody]
      exact if_pos hlen
    rw [hbody2]
    refine ⟨?_, ?_, rfl, rfl, rfl, rfl⟩
    · rw [guard_ok_status]
      by_cases hr : ludRatio curr rest < 2 / 5
      · rw [decide_eq_true hr, if_pos rfl]
        exact iff_of_true rfl hr
      · rw [decide_eq_false hr, if_neg (by decide)]
        exact iff_of_false (by decide) hr
    · rw [guard_ok_status]
      by_cases hr : ludRatio curr rest < 2 / 5
      · rw [decide_eq_true hr, if_pos rfl]
        exact iff_of_false (by decide) (not_not_intro hr)
      · rw [decide_eq_false hr, if_neg (by decide)]
        exact iff_of_true rfl hr
  · intro h7
    cases hords : sortByDesc (groupPairs df c) with
    | nil =>
      have hbody := lud_density_body_ok (pureState df keys (some c)) (pureEnv df) c q0 qs
        [] hpairs (hordq [] hords)
      rw [hbody]
      exact ⟨rfl, rfl⟩
    | cons curr rest =>
      rw [hords, List.length_cons] at h7
      have hlen : ¬(6 ≤ rest.length) := by omega
      have hbody := lud_density_body_ok (pureState df keys (some c)) (pureEnv df) c q0 qs
        (curr :: rest) hpairs (hordq _ hords)
      have hbody2 : lud_density_body (pureState df keys (some c)) (pureEnv df) c
          = .ok ("Failed",
                 J.obj (ludBase (q0 :: qs)
                     ((((((q0 :: qs).map Prod.snd)).sum : ℚ))
                       / (((((q0 :: qs).map Prod.snd)).length : ℚ)))
                   ++ [("moving_average", ludInsufficient)])) := by
        rw [hbody]
        exact if_neg hlen
      rw [hbody2]
      exact ⟨rfl, rfl⟩

/-- A dataset with seven distinct time-column values, one row each. -/
def dfW3 : DataFrame :=
  { cols := ["k", "d"],
    rows := [[("k", Value.num 1), ("d", Value.num 1)],
             [("k", Value.num 1), ("d", Value.num 2)],
             [("k", Value.num 1), ("d", Value.num 3)],
             [("k", Value.num 1), ("d", Value.num 4)],
             [("k", Value.num 1), ("d", Value.num 5)],
             [("k", Value.num 1), ("d", Value.num 6)],
             [("k", Value.num 1), ("d", Value.num 7)]] }

/-- Witness for C3: seven equal-count periods give a quotient of one, above
the 0.4 threshold, and the check passes. -/
theorem lud_density_spec_witness :
    (guardCheck "t" (lud_density_body (pureState dfW3 ["k"] (some "d")) (pureEnv dfW3) "d")).status
      = "Passed" := by
  have h := lud_density_spec dfW3 ["k"] "d" "t" (by decide) (by decide)
  have hord : sortByDesc (groupPairs dfW3 "d")
      = [(Value.num 7, 1), (Value.num 6, 1), (Value.num 5, 1), (Value.num 4, 1),
         (Value.num 3, 1), (Value.num 2, 1), (Value.num 1, 1)] := by decide
  have h4 := h.2.2.2.1 (Value.num 7, 1)
      [(Value.num 6, 1), (Value.num 5, 1), (Value.num 4, 1),
       (Value.num 3, 1), (Value.num 2, 1), (Value.num 1, 1)] hord (by decide)
  have hval : ludLastAvg
      [(Value.num 6, 1), (Value.num 5, 1), (Value.num 4, 1),
       (Value.num 3, 1), (Value.num 2, 1), (Value.num 1, 1)] = 1 := by
    norm_num [ludLastAvg]
  have hrat : ludRatio (Value.num 7, 1)
      [(Value.num 6, 1), (Value.num 5, 1), (Value.num 4, 1),
       (Value.num 3, 1), (Value.num 2, 1), (Value.num 1, 1)] = 1 := by
    norm_num [ludRatio, hval]
  exact h4.2.1.mpr (by rw [hrat]; norm_num)
